import Mathlib

/-!
Verification of the eyewear matching pipeline in `backend/match.py`.

The Python source is shallowly embedded: pure pixel statistics become Lean
functions over lists of pixels, the external CLIP oracle and the PIL/scipy
image operations are abstracted as explicit parameters, and every Python
`try/except` that the claims depend on is modelled by an explicit flag or an
`Option` input.  Machine floats used by the source only enter the claims at
exact decision thresholds, so all arithmetic is carried out over `ℚ`; the one
irrational operation (`np.std`'s square root) is passed in as an explicit
function parameter `sqrtq` and no claim below depends on its values.
-/

namespace GlassesMatch

/-- One 8-bit RGB pixel of a decoded image (`width×height×3`, values 0..255). -/
structure RGB where
  r : ℕ
  g : ℕ
  b : ℕ
deriving DecidableEq, Repr

/-- Per-pixel brightness, `np.mean(pixels_flat, axis=1)`: the mean of the three
channels of one pixel. -/
def brightness (p : RGB) : ℚ := ((p.r : ℚ) + (p.g : ℚ) + (p.b : ℚ)) / 3

/-- `np.mean` of a list of rationals (0 on the empty list, which the source
never hits on the paths modelled here). -/
def npMean (l : List ℚ) : ℚ := l.sum / (l.length : ℚ)

/-- Insertion into a `≤`-sorted list, used to model `np.median`'s sort. -/
def insertLe (a : ℚ) : List ℚ → List ℚ
  | [] => [a]
  | b :: bs => if a ≤ b then a :: b :: bs else b :: insertLe a bs

/-- Insertion sort by `≤`, used to model `np.median`'s sort. -/
def sortLe : List ℚ → List ℚ
  | [] => []
  | a :: as => insertLe a (sortLe as)

/-- `np.median` of a list of rationals: middle element of the sorted list for
odd length, average of the two middle elements for even length. -/
def npMedian (l : List ℚ) : ℚ :=
  let s := sortLe l
  let n := s.length
  if n = 0 then 0
  else if n % 2 = 1 then s.getD (n / 2) 0
  else (s.getD (n / 2 - 1) 0 + s.getD (n / 2) 0) / 2

/-- Population variance, the quantity under the square root in `np.std`. -/
def npVar (l : List ℚ) : ℚ := npMean (l.map (fun x => (x - npMean l) ^ 2))

/-- `np.std`, with the square root supplied as an explicit parameter `sqrtq`
(no claim in this development depends on its values). -/
def npStd (sqrtq : ℚ → ℚ) (l : List ℚ) : ℚ := sqrtq (npVar l)

/-- `numpy`'s `astype(int)`: truncation toward zero. -/
def npInt (q : ℚ) : ℤ := if 0 ≤ q then ⌊q⌋ else -⌊-q⌋

/-- One lowercase hexadecimal digit. -/
def hexDigit (n : ℕ) : Char :=
  if n < 10 then Char.ofNat (48 + n) else Char.ofNat (87 + n)

/-- Python's `f"{n:02x}"` for `0 ≤ n < 256` (the only range the source feeds
it: channel statistics of 8-bit pixels). -/
def hex2 (n : ℕ) : String := String.mk [hexDigit (n / 16 % 16), hexDigit (n % 16)]

/-- Python's `f"#{r:02x}{g:02x}{b:02x}"` on nonnegative channel values. -/
def hexColorI (r g b : ℤ) : String := "#" ++ hex2 r.toNat ++ hex2 g.toNat ++ hex2 b.toNat

/-- Round-half-to-even to the nearest integer, as Python's `round` and `%`
formatting do. -/
def roundHalfEven (q : ℚ) : ℤ :=
  let f := ⌊q⌋
  let r := q - (f : ℚ)
  if r < 1 / 2 then f
  else if 1 / 2 < r then f + 1
  else if f % 2 = 0 then f else f + 1

/-- Python's `round(q, d)` (round half to even at `d` decimal digits). -/
def pyRound (d : ℕ) (q : ℚ) : ℚ :=
  (roundHalfEven (q * (10 : ℚ) ^ d) : ℚ) / (10 : ℚ) ^ d

/-- Python's `f"{q:.1%}"`: the value times 100, rendered with one decimal
digit and a percent sign. -/
def fmtPct (q : ℚ) : String :=
  let n := roundHalfEven (q * 1000)
  let sign := if n < 0 then "-" else ""
  let m := n.natAbs
  sign ++ toString (m / 10) ++ "." ++ toString (m % 10) ++ "%"

/-- Whether the first character list starts the second one. -/
def startsWith : List Char → List Char → Bool
  | [], _ => true
  | _ :: _, [] => false
  | a :: as, b :: bs => (a = b) && startsWith as bs

/-- Whether the first character list occurs contiguously in the second. -/
def hasSub (needle : List Char) : List Char → Bool
  | [] => needle.isEmpty
  | c :: rest => startsWith needle (c :: rest) || hasSub needle rest

/-- Python's `needle in hay` on strings: contiguous substring test. -/
def substrIn (needle hay : String) : Bool := hasSub needle.toList hay.toList

/-- Helper for `os.path.splitext`: index of the last dot that is preceded by
some non-dot character (Python never treats leading dots as an extension). -/
def splitextDot : List Char → Bool → Option ℕ → ℕ → Option ℕ
  | [], _, acc, _ => acc
  | c :: rest, seenNonDot, acc, i =>
    if c = '.' then splitextDot rest seenNonDot (if seenNonDot then some i else acc) (i + 1)
    else splitextDot rest true acc (i + 1)

/-- The root part of `os.path.splitext` on a plain file name. -/
def splitextRoot (s : String) : String :=
  match splitextDot s.toList false none 0 with
  | some i => String.mk (s.toList.take i)
  | none => s

/-- Python's `str.lower()` on the ASCII file names the pipeline handles,
written structurally (character by character) so that it evaluates. -/
def pyLower (s : String) : String := String.mk (s.toList.map Char.toLower)

/-- The per-image shape decision tree of `detect_glasses_shape`
(`match.py` lines 386-412), on the derived geometric descriptors. -/
def classify_shape (aspect_ratio fill_ratio circularity : ℚ) : String :=
  if circularity > 1.5 ∨ (aspect_ratio < 1.5 ∧ fill_ratio < 0.5) then "round"
  else if aspect_ratio > 2.5 then "aviator"
  else if aspect_ratio > 1.8 then
    if fill_ratio > 0.6 then "wayfarer" else "sport"
  else if aspect_ratio > 1.3 then
    if fill_ratio > 0.7 then "square" else "cat_eye"
  else if fill_ratio > 0.75 then "round"
  else "round"

/-- The `SHAPE_KEYWORDS` table of `match.py`. -/
def SHAPE_KEYWORDS : List (String × List String) :=
  [("round", ["round", "circular", "circle", "oval", "metal_round", "lennon", "vintage", "retro", "classic"]),
   ("square", ["square", "rectangular", "rectangle", "box", "wayfarer", "nerd", "hipster"]),
   ("cat_eye", ["cat_eye", "cat-eye", "cateye", "cat"]),
   ("aviator", ["aviator", "pilot", "teardrop", "ray_ban", "rayban"]),
   ("wayfarer", ["wayfarer", "classic", "black_glasses"]),
   ("oversized", ["oversized", "big", "large", "xl"]),
   ("rimless", ["rimless", "frameless", "minimal"]),
   ("sport", ["sport", "athletic", "wrap", "shield", "oakley"]),
   ("vintage", ["vintage", "retro", "old", "prada"]),
   ("futuristic", ["futuristic", "modern", "cyber", "tech", "vr"]),
   ("heart", ["heart", "love"]),
   ("geometric", ["geometric", "hexagon", "octagon", "polygon"])]

/-- `SHAPE_KEYWORDS.get(detected_shape, [detected_shape])`. -/
def keywords_for (shape : String) : List String :=
  match SHAPE_KEYWORDS.find? (fun kv => kv.1 == shape) with
  | some kv => kv.2
  | none => [shape]

/-- Scan for the element of highest multiplicity in `orig`; only a strictly
larger count replaces the current best, so the earliest maximal element wins,
exactly the tie behaviour of `collections.Counter.most_common(1)` (dicts
preserve first-insertion order and `nlargest` is stable). -/
def mcAux (orig : List String) : List String → String → String
  | [], best => best
  | y :: ys, best =>
    if orig.count y > orig.count best then mcAux orig ys y else mcAux orig ys best

/-- `Counter(l).most_common(1)[0][0]` for nonempty `l`. -/
def most_common : List String → Option String
  | [] => none
  | x :: xs => some (mcAux (x :: xs) xs x)

/-- `detect_glasses_shape` (`match.py` lines 312-427).  The per-image pixel
geometry (adaptive dark threshold, bounding box, fill ratio, corner/center
circularity) is abstracted as the input: each image contributes either `none`
(undecodable in the sense of yielding no dark pixels or a degenerate bounding
box, hence `continue`) or its `(aspect_ratio, fill_ratio, circularity)`
triple.  `raised = true` models the outer `except` handler, which returns
`'round'`. -/
def detect_glasses_shape (raised : Bool) (imgs : List (Option (ℚ × ℚ × ℚ))) : String :=
  if raised then "round"
  else
    let shapes := imgs.filterMap (fun o => o.map (fun t => classify_shape t.1 t.2.1 t.2.2))
    match most_common shapes with
    | some s => s
    | none => "round"

/-- The extracted visual attributes returned by `extract_glasses_properties`. -/
structure ExtractedProperties where
  lensColor : String
  frameColor : String
  tintOpacity : ℚ
  frameScale : ℚ
  frameMaterial : String
  frameMetalness : ℚ
deriving DecidableEq, Repr

/-- The hard-coded default property set of `match.py`. -/
def defaultProperties : ExtractedProperties :=
  { lensColor := "#3b82f6", frameColor := "#1a1a1a", tintOpacity := 0.5,
    frameScale := 1, frameMaterial := "plastic", frameMetalness := 0.1 }

/-- The result record of the matcher, a flat JSON object in the source.
Fields that some code paths omit from the emitted dict are `Option`s. -/
structure MatchResult where
  best_model : Option String := none
  confidence : Option ℚ := none
  source_image : Option String := none
  matched : Bool := false
  method : Option String := none
  detected_shape : Option String := none
  error : Option String := none
  validation_confidence : Option ℚ := none
  props : Option ExtractedProperties := none
deriving DecidableEq, Repr

/-- `match_by_shape` (`match.py` lines 430-489).  `models` is the list that
the source reads from `AVAILABLE_MODELS` or the cache file; `mRaised` models
the function's own `except` handler (which returns `None`) and `dRaised` the
handler inside `detect_glasses_shape`. -/
def match_by_shape (mRaised dRaised : Bool) (imgs : List (Option (ℚ × ℚ × ℚ)))
    (models : List String) (props : ExtractedProperties) : Option MatchResult :=
  if mRaised then none
  else
    let detected := detect_glasses_shape dRaised imgs
    if models = [] then none
    else
      let kws := keywords_for detected
      let matching := models.filter (fun m => kws.any (fun kw => substrIn kw (pyLower m)))
      let matching :=
        if matching = [] then
          let generic := models.filter (fun m =>
            substrIn "glasses" (pyLower m) || substrIn "spectacle" (pyLower m) ||
              substrIn "eyewear" (pyLower m))
          if generic ≠ [] then generic.take 10 else models.take 10
        else matching
      some { best_model := some (matching.headD (models.headD "")),
             confidence := some (if detected ≠ "classic" then 0.75 else 0.5),
             source_image := some "shape_detection",
             matched := true,
             method := some "shape_match",
             detected_shape := some detected,
             props := some props }

/-- One decoded upload as `extract_glasses_properties` sees it after the PIL
resizes: `framePixels` is the flattened `100×100` RGB array and `tintPixels`
the flattened `50×50` array of the central crop (middle 50% of width and
height).  A uniform source image yields uniform arrays under both resizes. -/
structure PImage where
  framePixels : List RGB
  tintPixels : List RGB
deriving DecidableEq, Repr

/-- The frame-pixel band of `extract_glasses_properties`:
`(brightness > 10) & (brightness < 100)`. -/
def darkPixels (im : PImage) : List RGB :=
  im.framePixels.filter (fun p => decide (10 < brightness p) && decide (brightness p < 100))

/-- The lens/tint band sampled from the central crop:
`(center_brightness > 30) & (center_brightness < 200)`. -/
def tintPixelsOf (im : PImage) : List RGB :=
  im.tintPixels.filter (fun p => decide (30 < brightness p) && decide (brightness p < 200))

/-- `np.median(pixels, axis=0).astype(int)` per channel. -/
def medianColor (l : List RGB) : ℤ × ℤ × ℤ :=
  (npInt (npMedian (l.map (fun p => (p.r : ℚ)))),
   npInt (npMedian (l.map (fun p => (p.g : ℚ)))),
   npInt (npMedian (l.map (fun p => (p.b : ℚ)))))

/-- `np.mean(pixels, axis=0).astype(int)` per channel. -/
def meanColorInt (l : List RGB) : ℤ × ℤ × ℤ :=
  (npInt (npMean (l.map (fun p => (p.r : ℚ)))),
   npInt (npMean (l.map (fun p => (p.g : ℚ)))),
   npInt (npMean (l.map (fun p => (p.b : ℚ)))))

/-- `np.mean(colors, axis=0).astype(int)` over a list of integer colors. -/
def meanIntTriple (l : List (ℤ × ℤ × ℤ)) : ℤ × ℤ × ℤ :=
  (npInt (npMean (l.map (fun c => (c.1 : ℚ)))),
   npInt (npMean (l.map (fun c => (c.2.1 : ℚ)))),
   npInt (npMean (l.map (fun c => (c.2.2 : ℚ)))))

/-- The saturation component of `colorsys.rgb_to_hsv` (the only component the
source uses). -/
def hsvS (r g b : ℚ) : ℚ :=
  let maxc := max r (max g b)
  let minc := min r (min g b)
  if minc = maxc then 0 else (maxc - minc) / maxc

/-- The per-image accumulation loop of `extract_glasses_properties`
(`match.py` lines 177-213): returns `(all_lens_colors, all_frame_colors,
all_frame_pixels)` in loop order.  A `none` entry is an image whose
processing raised (e.g. failed to decode), which the source skips. -/
def collectStats : List (Option PImage) → List (ℤ × ℤ × ℤ) × List (ℤ × ℤ × ℤ) × List RGB
  | [] => ([], [], [])
  | none :: rest => collectStats rest
  | some im :: rest =>
    let acc := collectStats rest
    let dp := darkPixels im
    let frames := if dp.length > 10 then medianColor dp :: acc.2.1 else acc.2.1
    let framePix := if dp.length > 10 then dp ++ acc.2.2 else acc.2.2
    let tp := tintPixelsOf im
    let lens := if tp.length > 5 then meanColorInt tp :: acc.1 else acc.1
    (lens, frames, framePix)

/-- `extract_glasses_properties` (`match.py` lines 165-268).  `sqrtq` stands
for the square root taken inside `np.std`. -/
def extract_glasses_properties (sqrtq : ℚ → ℚ) (imgs : List (Option PImage)) :
    ExtractedProperties :=
  let acc := collectStats imgs
  let allLens := acc.1
  let allFrameColors := acc.2.1
  let allFramePix := acc.2.2
  let arr := if allFramePix = [] then [⟨50, 50, 50⟩] else allFramePix
  let mat :=
    if arr.length > 10 then
      let rs := arr.map (fun p => (p.r : ℚ))
      let gs := arr.map (fun p => (p.g : ℚ))
      let bs := arr.map (fun p => (p.b : ℚ))
      let avgStd := (npStd sqrtq rs + npStd sqrtq gs + npStd sqrtq bs) / 3
      let bright := arr.map brightness
      let brightnessStd := npStd sqrtq bright
      let r := npMean rs
      let g := npMean gs
      let b := npMean bs
      let isSilver := decide (npMean bright > 150) && decide (npStd sqrtq [r, g, b] < 20)
      let isGold := decide (r > g) && decide (g > b) && decide (brightnessStd > 30)
      if isSilver || isGold || (decide (avgStd < 25) && decide (brightnessStd > 40)) then
        ("metal", if isSilver then (0.7 : ℚ) else 0.5)
      else ("plastic", (0.1 : ℚ))
    else ("plastic", (0.1 : ℚ))
  let frameColor :=
    if allFrameColors ≠ [] then
      let c := meanIntTriple allFrameColors
      hexColorI c.1 c.2.1 c.2.2
    else "#1a1a1a"
  let lens :=
    if allLens ≠ [] then
      let c := meanIntTriple allLens
      let s := hsvS ((c.1 : ℚ) / 255) ((c.2.1 : ℚ) / 255) ((c.2.2 : ℚ) / 255)
      (hexColorI c.1 c.2.1 c.2.2, min (0.85 : ℚ) (max 0.25 (s * 0.5 + 0.3)))
    else ("#3b82f6", (0.5 : ℚ))
  { lensColor := lens.1, frameColor := frameColor,
    tintOpacity := pyRound 2 lens.2, frameScale := 1,
    frameMaterial := mat.1, frameMetalness := pyRound 2 mat.2 }

/-- Modelled from the spec: claim C2's frame-color rule as stated — the
per-channel median over the aggregated population of all frame pixels
collected across all submitted images, with the `#1a1a1a` fallback exactly
when fewer than 10 frame-pixel samples were collected in total. -/
def spec_frame_color (imgs : List (Option PImage)) : String :=
  let pop := (imgs.filterMap id).foldr (fun im acc => darkPixels im ++ acc) []
  if pop.length < 10 then "#1a1a1a"
  else
    let c := medianColor pop
    hexColorI c.1 c.2.1 c.2.2

/-- Modelled from the amended claim C2: the reported frame color is the
per-channel mean (truncated to int) of the per-image per-channel medians of
frame pixels, taken over the images that individually yield more than 10
frame-pixel samples; the `#1a1a1a` fallback fires exactly when no image
yields more than 10 samples. -/
def amended_frame_color (imgs : List (Option PImage)) : String :=
  let meds := (imgs.filterMap id).foldr
    (fun im acc =>
      let dp := darkPixels im
      if dp.length > 10 then medianColor dp :: acc else acc) []
  if meds = [] then "#1a1a1a"
  else
    let c := meanIntTriple meds
    hexColorI c.1 c.2.1 c.2.2

/-- A decoded 100×100 image whose frame-band population is 15 pixels of
RGB 12 (the 50×50 central crop is all white). -/
def cexImgA : PImage :=
  { framePixels := List.replicate 15 ⟨12, 12, 12⟩ ++ List.replicate 9985 ⟨255, 255, 255⟩,
    tintPixels := List.replicate 2500 ⟨255, 255, 255⟩ }

/-- A decoded 100×100 image whose frame-band population is 101 pixels of
RGB 90 (the 50×50 central crop is all white). -/
def cexImgB : PImage :=
  { framePixels := List.replicate 101 ⟨90, 90, 90⟩ ++ List.replicate 9899 ⟨255, 255, 255⟩,
    tintPixels := List.replicate 2500 ⟨255, 255, 255⟩ }

/-- A decoded 100×100 image all of whose pixels are the uniform mid-gray
RGB 128 (so both resized arrays are uniform as well). -/
def uniformGray : PImage :=
  { framePixels := List.replicate 10000 ⟨128, 128, 128⟩,
    tintPixels := List.replicate 2500 ⟨128, 128, 128⟩ }

/-- The seven "glasses-like" prompts of `validate_glasses_image`. -/
def glasses_prompts : List String :=
  ["a photo of eyeglasses", "a photo of sunglasses", "a photo of spectacles",
   "a photo of reading glasses", "a photo of prescription glasses",
   "a photo of eyewear", "a photo of optical frames"]

/-- The sixteen "non-glasses" prompts of `validate_glasses_image`. -/
def non_glasses_prompts : List String :=
  ["a photo of a person", "a photo of a face", "a photo of food",
   "a photo of an animal", "a photo of a cat", "a photo of a dog",
   "a photo of a phone", "a photo of a car", "a photo of a building",
   "a photo of nature", "a photo of clothing", "a photo of shoes",
   "a photo of a watch", "a photo of text or document", "a photo of furniture",
   "a photo of electronics"]

/-- `all_prompts = glasses_prompts + non_glasses_prompts`. -/
def all_prompts : List String := glasses_prompts ++ non_glasses_prompts

/-- `sum(probs[i] for i in range(len(glasses_prompts)))` for one image's
softmax output over `all_prompts`. -/
def glassesScore (probs : List ℚ) : ℚ := (probs.take glasses_prompts.length).sum

/-- `sum(probs[i] for i in range(len(glasses_prompts), len(all_prompts)))`. -/
def nonGlassesScore (probs : List ℚ) : ℚ :=
  ((probs.drop glasses_prompts.length).take (all_prompts.length - glasses_prompts.length)).sum

/-- The averaged glasses score of `validate_glasses_image` over the images
that loaded successfully. -/
def avgGlasses (imgs : List (Option (List ℚ))) : ℚ :=
  npMean ((imgs.filterMap id).map glassesScore)

/-- The averaged non-glasses score over the images that loaded. -/
def avgNonGlasses (imgs : List (Option (List ℚ))) : ℚ :=
  npMean ((imgs.filterMap id).map nonGlassesScore)

/-- The below-threshold rejection message of `validate_glasses_image`. -/
def lowConfidenceReason (g : ℚ) : String :=
  "Image does not appear to be eyeglasses (confidence: " ++ fmtPct g ++ ")"

/-- The dominated-by-another-category rejection message. -/
def otherCategoryReason (g n : ℚ) : String :=
  "Image appears to be something other than glasses (glasses: " ++ fmtPct g ++
    ", other: " ++ fmtPct n ++ ")"

/-- `validate_glasses_image` (`match.py` lines 529-643).  `clipLoaded` is
whether `load_clip()` succeeded; each image contributes `none` if
`Image.open` failed (skipped by the inner handler) and otherwise its softmax
probability vector over `all_prompts`; `inferRaises = true` models an
exception raised by the classifier during inference, handled by the fail-open
`except` (inference only runs once at least one image loaded). -/
def validate_glasses_image (clipLoaded inferRaises : Bool)
    (imgs : List (Option (List ℚ))) : Bool × ℚ × Option String :=
  if clipLoaded = false then (true, 1, none)
  else
    let loaded := imgs.filterMap id
    if loaded = [] then (false, 0, some "Could not load any images")
    else if inferRaises then (true, 1, none)
    else
      let avg_g := avgGlasses imgs
      let avg_n := avgNonGlasses imgs
      if avg_g > avg_n ∧ avg_g ≥ 0.25 then (true, avg_g, none)
      else if avg_g < 0.25 then (false, avg_g, some (lowConfidenceReason avg_g))
      else (false, avg_g, some (otherCategoryReason avg_g avg_n))

/-- The two flags of `analyze_frame_shape`'s result that `clip_match`
consumes (via `.get("is_rectangular")` / `.get("is_round")`); the remaining
dict entries (aspect ratio, edge scores) are never read downstream. -/
structure FrameShape where
  is_rectangular : Bool
  is_round : Bool
deriving DecidableEq, Repr

/-- One uploaded image at the pipeline level.  `pim` is what
`extract_glasses_properties` decodes from its path (`none` = decode error),
`shapeData` the geometric triple that `detect_glasses_shape` derives
(`none` = skipped), and `clipProbs` the classifier's softmax vector for the
validation gate (`none` = load error there). -/
structure Img where
  pim : Option PImage
  shapeData : Option (ℚ × ℚ × ℚ)
  clipProbs : Option (List ℚ)
deriving DecidableEq

/-- The process environment of one matching request: the square root used by
`np.std`, the reference image directory (`list_refs()`), the catalog model
list (`AVAILABLE_MODELS` / cache file), whether `load_clip()` succeeds, the
cached embedding index's filenames (`none` = missing or unloadable
`reference_embeddings.pt`), and the image-level oracles: background
suppression (`remove_background`), the coarse shape descriptor
(`analyze_frame_shape`), and the CLIP cosine similarities of the normalized
mean query vector against the cached reference embeddings, in filename
order. -/
structure Env where
  sqrtq : ℚ → ℚ
  refs : List String
  models : List String
  clipLoaded : Bool
  refNames : Option (List String)
  removeBg : Img → Img
  analyzeShape : Img → FrameShape
  simOf : List Img → List ℚ

/-- The rectangular-family boost keywords of `clip_match`. -/
def rectangular_keywords : List String :=
  ["rayban", "ray_ban", "wayfarer", "black_glasses", "rectangular", "square",
   "nerd", "hipster", "reading"]

/-- The round-family boost keywords of `clip_match`. -/
def round_keywords : List String :=
  ["round", "circle", "metal_round", "lennon", "vintage"]

/-- The score adjustment applied to one reference entry (`match.py` lines
764-791): +0.15 for the first matching keyword of the family agreeing with
the uploaded shape, then -0.10 for the first matching keyword of the opposite
family; nothing when neither flag is set. -/
def boost_one (shape : FrameShape) (refName : String) (s : ℚ) : ℚ :=
  let lower := pyLower refName
  if shape.is_rectangular then
    let s1 := if rectangular_keywords.any (fun kw => substrIn kw lower) then s + 0.15 else s
    if round_keywords.any (fun kw => substrIn kw lower) then s1 - 0.1 else s1
  else if shape.is_round then
    let s1 := if round_keywords.any (fun kw => substrIn kw lower) then s + 0.15 else s
    if rectangular_keywords.any (fun kw => substrIn kw lower) then s1 - 0.1 else s1
  else s

/-- `sims_boosted`: the adjusted similarity for every cached reference. -/
def boost_scores (shape : FrameShape) (names : List String) (sims : List ℚ) : List ℚ :=
  (names.zip sims).map (fun ns => boost_one shape ns.1 ns.2)

/-- `int(torch.argmax(v))`: index of the first maximal entry (0 if empty). -/
def argmaxIdx : List ℚ → ℕ
  | [] => 0
  | [_] => 0
  | x :: y :: rest =>
    let k := argmaxIdx (y :: rest)
    if (y :: rest).getD k 0 > x then k + 1 else 0

/-- `simple_match` (`match.py` lines 271-309).  `mRaised`/`dRaised` are the
exception flags of `match_by_shape` and `detect_glasses_shape`. -/
def simple_match (env : Env) (mRaised dRaised : Bool) (imgs : List Img) : MatchResult :=
  let props :=
    if imgs ≠ [] then extract_glasses_properties env.sqrtq (imgs.map (fun i => i.pim))
    else defaultProperties
  let shapeRes :=
    if imgs ≠ [] then
      match_by_shape mRaised dRaised (imgs.map (fun i => i.shapeData)) env.models props
    else none
  match shapeRes with
  | some r => r
  | none =>
    match env.refs with
    | f :: _ =>
      { best_model := some (splitextRoot f ++ ".glb"), confidence := some 0.6,
        source_image := some f, matched := true, method := some "fallback",
        props := some props }
    | [] =>
      { best_model := some "default.glb", confidence := some 0.5,
        source_image := some "none", matched := true, method := some "default",
        props := some props }

/-- `clip_match` (`match.py` lines 680-820), translated from the source.
`inferRaises` is the validation gate's inference-exception flag,
`encodeRaises` an exception anywhere in the outer `try` (decode of an upload,
CLIP encoding, ...), which the source handles by falling back to
`simple_match`.  Note that the source computes `analyze_frame_shape` on
`up_imgs[0]`, the background-suppressed first upload. -/
def clip_match (env : Env) (inferRaises encodeRaises mRaised dRaised : Bool)
    (imgs : List Img) : MatchResult :=
  let v := validate_glasses_image env.clipLoaded inferRaises (imgs.map (fun i => i.clipProbs))
  if v.1 = false then
    { error := v.2.2, matched := false, method := some "validation_rejected",
      validation_confidence := some (pyRound 3 v.2.1) }
  else if env.clipLoaded = false then simple_match env mRaised dRaised imgs
  else
    match env.refNames with
    | none => simple_match env mRaised dRaised imgs
    | some names =>
      if encodeRaises then simple_match env mRaised dRaised imgs
      else
        match imgs.map env.removeBg with
        | [] => simple_match env mRaised dRaised imgs
        | u0 :: urest =>
          let sims := env.simOf (u0 :: urest)
          let uploadedShape := env.analyzeShape u0
          let boosted := boost_scores uploadedShape names sims
          let bestIdx := argmaxIdx boosted
          let bestScore := sims.getD bestIdx 0
          let bestRef := names.getD bestIdx ""
          { best_model := some (splitextRoot bestRef ++ ".glb"),
            confidence := some (pyRound 3 ((bestScore + 1) / 2)),
            source_image := some bestRef, matched := true,
            method := some "clip_cached",
            props := some (extract_glasses_properties env.sqrtq (imgs.map (fun i => i.pim))) }

/-- Modelled from the spec: claim C1 as stated — identical to `clip_match`
except that the coarse shape descriptor is computed on the original first
uploaded image rather than on its background-suppressed copy. -/
def clip_match_specC1 (env : Env) (inferRaises encodeRaises mRaised dRaised : Bool)
    (imgs : List Img) : MatchResult :=
  let v := validate_glasses_image env.clipLoaded inferRaises (imgs.map (fun i => i.clipProbs))
  if v.1 = false then
    { error := v.2.2, matched := false, method := some "validation_rejected",
      validation_confidence := some (pyRound 3 v.2.1) }
  else if env.clipLoaded = false then simple_match env mRaised dRaised imgs
  else
    match env.refNames with
    | none => simple_match env mRaised dRaised imgs
    | some names =>
      if encodeRaises then simple_match env mRaised dRaised imgs
      else
        match imgs with
        | [] => simple_match env mRaised dRaised imgs
        | i0 :: irest =>
          let sims := env.simOf ((i0 :: irest).map env.removeBg)
          let uploadedShape := env.analyzeShape i0
          let boosted := boost_scores uploadedShape names sims
          let bestIdx := argmaxIdx boosted
          let bestScore := sims.getD bestIdx 0
          let bestRef := names.getD bestIdx ""
          { best_model := some (splitextRoot bestRef ++ ".glb"),
            confidence := some (pyRound 3 ((bestScore + 1) / 2)),
            source_image := some bestRef, matched := true,
            method := some "clip_cached",
            props := some (extract_glasses_properties env.sqrtq (imgs.map (fun i => i.pim))) }

/-- Modelled from the amended claim C1: the Property Extractor consumes the
original uploads, while the embedding step and the coarse shape descriptor
both consume the background-suppressed copies — the descriptor specifically
the suppressed first upload. -/
def clip_match_amendedC1 (env : Env) (inferRaises encodeRaises mRaised dRaised : Bool)
    (imgs : List Img) : MatchResult :=
  let v := validate_glasses_image env.clipLoaded inferRaises (imgs.map (fun i => i.clipProbs))
  if v.1 = false then
    { error := v.2.2, matched := false, method := some "validation_rejected",
      validation_confidence := some (pyRound 3 v.2.1) }
  else if env.clipLoaded = false then simple_match env mRaised dRaised imgs
  else
    match env.refNames with
    | none => simple_match env mRaised dRaised imgs
    | some names =>
      if encodeRaises then simple_match env mRaised dRaised imgs
      else
        match imgs with
        | [] => simple_match env mRaised dRaised imgs
        | i0 :: irest =>
          let suppressed := (i0 :: irest).map env.removeBg
          let sims := env.simOf suppressed
          let uploadedShape := env.analyzeShape (env.removeBg i0)
          let boosted := boost_scores uploadedShape names sims
          let bestIdx := argmaxIdx boosted
          let bestScore := sims.getD bestIdx 0
          let bestRef := names.getD bestIdx ""
          { best_model := some (splitextRoot bestRef ++ ".glb"),
            confidence := some (pyRound 3 ((bestScore + 1) / 2)),
            source_image := some bestRef, matched := true,
            method := some "clip_cached",
            props := some (extract_glasses_properties env.sqrtq (imgs.map (fun i => i.pim))) }

/-- `main` without its CLI parsing (`match.py` lines 823-836): the no-images
early exit, then `clip_match`. -/
def run_main (env : Env) (inferRaises encodeRaises mRaised dRaised : Bool)
    (imgs : List Img) : MatchResult :=
  if imgs = [] then { error := some "No images", matched := false }
  else clip_match env inferRaises encodeRaises mRaised dRaised imgs

/-- The outermost boundary of the program (`match.py` lines 839-849): a
normal result is printed as is; an escaped exception is converted into the
crash-handler record and the process still exits 0. -/
def main_boundary (r : Except String MatchResult) : MatchResult :=
  match r with
  | Except.ok v => v
  | Except.error e =>
    { error := some e, matched := false, method := some "crash_handler" }

/-- The six strings that `detect_glasses_shape` can produce. -/
def shape_categories : List String :=
  ["round", "aviator", "wayfarer", "sport", "square", "cat_eye"]

/-- Modelled from the spec: claim C8's classification decision tree, rule by
rule in the stated order with first match winning. -/
def spec_shape_tree (aspect_ratio fill_ratio circularity : ℚ) : String :=
  if circularity > 1.5 ∨ (aspect_ratio < 1.5 ∧ fill_ratio < 0.5) then "round"
  else if aspect_ratio > 2.5 then "aviator"
  else if aspect_ratio > 1.8 then
    if fill_ratio > 0.6 then "wayfarer" else "sport"
  else if aspect_ratio > 1.3 then
    if fill_ratio > 0.7 then "square" else "cat_eye"
  else "round"

/-- A classifier output with all mass on the first glasses prompt: clearly
accepted. -/
def probsGood : List ℚ := 1 :: List.replicate 22 0

/-- A classifier output whose glasses mass is 0.1 (below the 0.25 floor). -/
def probsLow : List ℚ :=
  [0.1, 0, 0, 0, 0, 0, 0] ++ (0.9 :: List.replicate 15 0)

/-- An upload that passes validation; its other channels are never consulted
on the paths where it is used. -/
def imgVal : Img := { pim := none, shapeData := none, clipProbs := some probsGood }

/-- An upload whose classifier output is dominated by non-glasses mass. -/
def imgReject : Img := { pim := none, shapeData := none, clipProbs := some probsLow }

/-- An upload with no usable data on any channel. -/
def imgBare : Img := { pim := none, shapeData := none, clipProbs := none }

/-- An environment whose background suppression changes the image in a way
the coarse shape descriptor notices: the suppressed copy is classified as
rectangular, the original is not, and the cached index holds one plain and
one rayban reference. -/
def envC1 : Env :=
  { sqrtq := fun q => q, refs := [], models := [], clipLoaded := true,
    refNames := some ["plain.png", "rayban.png"],
    removeBg := fun i => { i with shapeData := some (9, 9, 9) },
    analyzeShape := fun i => { is_rectangular := i.shapeData == some (9, 9, 9), is_round := false },
    simOf := fun _ => [0.5, 0.45] }

/-- An environment with a two-entry cached index and no shape flags, for
exercising the ranking/confidence path. -/
def envC5 : Env :=
  { sqrtq := fun q => q, refs := [], models := [], clipLoaded := true,
    refNames := some ["alpha.png", "beta.png"],
    removeBg := fun i => i,
    analyzeShape := fun _ => { is_rectangular := false, is_round := false },
    simOf := fun _ => [0.5, 0.25] }

/-- An environment with CLIP available and no usable cached index. -/
def envPlainClip : Env :=
  { sqrtq := fun q => q, refs := [], models := [], clipLoaded := true,
    refNames := none, removeBg := fun i => i,
    analyzeShape := fun _ => { is_rectangular := false, is_round := false },
    simOf := fun _ => [] }

/-- An environment with CLIP absent, an empty catalog and one reference
image, so that matching degrades to the `fallback` record. -/
def envFallback : Env :=
  { sqrtq := fun q => q, refs := ["ref1.png"], models := [], clipLoaded := false,
    refNames := none, removeBg := fun i => i,
    analyzeShape := fun _ => { is_rectangular := false, is_round := false },
    simOf := fun _ => [] }

theorem classify_shape_mem (ar fr c : ℚ) : classify_shape ar fr c ∈ shape_categories := by
  unfold classify_shape shape_categories
  split_ifs <;> simp

theorem mcAux_mem (orig : List String) : ∀ (ys : List String) (best : String),
    mcAux orig ys best ∈ best :: ys := by
  intro ys
  induction ys with
  | nil => intro best; simp [mcAux]
  | cons y ys ih =>
    intro best
    show mcAux orig (y :: ys) best ∈ best :: y :: ys
    rw [show mcAux orig (y :: ys) best =
      (if orig.count y > orig.count best then mcAux orig ys y else mcAux orig ys best) from rfl]
    split_ifs with h
    · exact List.mem_cons_of_mem best (ih y)
    · rcases List.mem_cons.mp (ih best) with h1 | h1
      · rw [h1]; exact List.mem_cons_self _ _
      · exact List.mem_cons_of_mem _ (List.mem_cons_of_mem _ h1)

theorem most_common_mem (l : List String) (s : String) (h : most_common l = some s) :
    s ∈ l := by
  cases l with
  | nil => simp [most_common] at h
  | cons x xs =>
    have hx : mcAux (x :: xs) xs x = s := by simpa [most_common] using h
    rw [← hx]
    exact mcAux_mem (x :: xs) xs x

theorem most_common_result_mem (shapes : List String)
    (hall : ∀ s ∈ shapes, s ∈ shape_categories) :
    (match most_common shapes with | some s => s | none => "round") ∈ shape_categories := by
  cases hm : most_common shapes with
  | none => show ("round" : String) ∈ shape_categories; decide
  | some s => exact hall s (most_common_mem _ _ hm)

theorem detect_mem (raised : Bool) (imgs : List (Option (ℚ × ℚ × ℚ))) :
    detect_glasses_shape raised imgs ∈ shape_categories := by
  cases raised with
  | true => show ("round" : String) ∈ shape_categories; decide
  | false =>
    exact most_common_result_mem
      (imgs.filterMap fun o => o.map fun t => classify_shape t.1 t.2.1 t.2.2)
      (by
        intro s hs
        rcases List.mem_filterMap.mp hs with ⟨o, -, ho⟩
        cases o with
        | none => simp at ho
        | some t =>
          simp only [Option.map_some'] at ho
          rcases ho with ⟨⟩
          exact classify_shape_mem t.1 t.2.1 t.2.2)

theorem shape_categories_ne_classic (s : String) (h : s ∈ shape_categories) :
    s ≠ "classic" := by
  fin_cases h <;> decide

theorem argmaxIdx_le (l : List ℚ) : ∀ j, j < l.length → l.getD j 0 ≤ l.getD (argmaxIdx l) 0 := by
  induction l with
  | nil => intro j hj; simp at hj
  | cons x xs ih =>
    cases xs with
    | nil =>
      intro j hj
      have hj0 : j = 0 := Nat.lt_one_iff.mp (by simpa using hj)
      subst hj0
      simp [argmaxIdx]
    | cons y rest =>
      intro j hj
      rw [show argmaxIdx (x :: y :: rest) =
        (if (y :: rest).getD (argmaxIdx (y :: rest)) 0 > x then argmaxIdx (y :: rest) + 1 else 0)
        from rfl]
      by_cases h : (y :: rest).getD (argmaxIdx (y :: rest)) 0 > x
      · rw [if_pos h, List.getD_cons_succ]
        cases j with
        | zero => simpa using le_of_lt h
        | succ j' =>
          rw [List.getD_cons_succ]
          exact ih j' (by simpa using Nat.lt_of_succ_lt_succ hj)
      · rw [if_neg h, List.getD_cons_zero]
        cases j with
        | zero => simp
        | succ j' =>
          rw [List.getD_cons_succ]
          exact le_trans (ih j' (by simpa using Nat.lt_of_succ_lt_succ hj)) (not_lt.mp h)

theorem validate_invalid_reason (cl iR : Bool) (imgs : List (Option (List ℚ)))
    (h : (validate_glasses_image cl iR imgs).1 = false) :
    (validate_glasses_image cl iR imgs).2.2.isSome := by
  unfold validate_glasses_image at h ⊢
  dsimp only at h ⊢
  split_ifs at h ⊢ <;> simp_all

theorem match_by_shape_some_fields (mR dR : Bool) (sd : List (Option (ℚ × ℚ × ℚ)))
    (models : List String) (props : ExtractedProperties) (r : MatchResult)
    (h : match_by_shape mR dR sd models props = some r) :
    r.best_model.isSome ∧ r.confidence.isSome ∧ r.source_image.isSome ∧
      r.matched = true ∧ r.method.isSome ∧ r.props.isSome := by
  unfold match_by_shape at h
  dsimp only at h
  split_ifs at h <;> ((rcases h with ⟨⟩) <;> simp)

theorem simple_match_fields (env : Env) (mR dR : Bool) (imgs : List Img) :
    (simple_match env mR dR imgs).matched = true ∧
      (simple_match env mR dR imgs).best_model.isSome ∧
      (simple_match env mR dR imgs).confidence.isSome ∧
      (simple_match env mR dR imgs).source_image.isSome ∧
      (simple_match env mR dR imgs).method.isSome ∧
      (simple_match env mR dR imgs).props.isSome := by
  unfold simple_match
  dsimp only
  split
  next r hr =>
    by_cases hne : imgs ≠ []
    · rw [if_pos hne] at hr
      obtain ⟨h1, h2, h3, h4, h5, h6⟩ := match_by_shape_some_fields _ _ _ _ _ _ hr
      exact ⟨h4, h1, h2, h3, h5, h6⟩
    · rw [if_neg hne] at hr
      simp at hr
  next hr =>
    cases env.refs <;> simp

theorem clip_match_fields (env : Env) (iR eR mR dR : Bool) (imgs : List Img) :
    ((clip_match env iR eR mR dR imgs).matched = true →
      (clip_match env iR eR mR dR imgs).best_model.isSome ∧
      (clip_match env iR eR mR dR imgs).confidence.isSome ∧
      (clip_match env iR eR mR dR imgs).source_image.isSome ∧
      (clip_match env iR eR mR dR imgs).method.isSome ∧
      (clip_match env iR eR mR dR imgs).props.isSome) ∧
    ((clip_match env iR eR mR dR imgs).matched = false →
      (clip_match env iR eR mR dR imgs).error.isSome) := by
  have hsimple :
      ((simple_match env mR dR imgs).matched = true →
        (simple_match env mR dR imgs).best_model.isSome ∧
        (simple_match env mR dR imgs).confidence.isSome ∧
        (simple_match env mR dR imgs).source_image.isSome ∧
        (simple_match env mR dR imgs).method.isSome ∧
        (simple_match env mR dR imgs).props.isSome) ∧
      ((simple_match env mR dR imgs).matched = false →
        (simple_match env mR dR imgs).error.isSome) := by
    obtain ⟨h1, h2, h3, h4, h5, h6⟩ := simple_match_fields env mR dR imgs
    refine ⟨fun _ => ⟨h2, h3, h4, h5, h6⟩, fun hm => ?_⟩
    rw [h1] at hm
    simp at hm
  unfold clip_match
  dsimp only
  split_ifs with hv hl he
  · constructor
    · intro hm; simp at hm
    · intro hm
      simpa using validate_invalid_reason env.clipLoaded iR (imgs.map fun i => i.clipProbs) hv
  · exact hsimple
  · rcases hn : env.refNames with _ | names <;> exact hsimple
  · rcases hn : env.refNames with _ | names
    · exact hsimple
    · rcases hmap : imgs.map env.removeBg with _ | ⟨u0, urest⟩
      · exact hsimple
      · constructor
        · intro hm; simp
        · intro hm; simp at hm

theorem darkPixels_cexImgA : darkPixels cexImgA = List.replicate 15 ⟨12, 12, 12⟩ := by
  unfold darkPixels cexImgA
  dsimp only
  rw [List.filter_append, List.filter_replicate, List.filter_replicate]
  norm_num [brightness]

theorem darkPixels_cexImgB : darkPixels cexImgB = List.replicate 101 ⟨90, 90, 90⟩ := by
  unfold darkPixels cexImgB
  dsimp only
  rw [List.filter_append, List.filter_replicate, List.filter_replicate]
  norm_num [brightness]

theorem tint_cexImgA : tintPixelsOf cexImgA = [] := by
  unfold tintPixelsOf cexImgA
  dsimp only
  rw [List.filter_replicate]
  norm_num [brightness]

theorem tint_cexImgB : tintPixelsOf cexImgB = [] := by
  unfold tintPixelsOf cexImgB
  dsimp only
  rw [List.filter_replicate]
  norm_num [brightness]

theorem dark_uniformGray : darkPixels uniformGray = [] := by
  unfold darkPixels uniformGray
  dsimp only
  rw [List.filter_replicate]
  norm_num [brightness]

theorem tint_uniformGray : tintPixelsOf uniformGray = List.replicate 2500 ⟨128, 128, 128⟩ := by
  unfold tintPixelsOf uniformGray
  dsimp only
  rw [List.filter_replicate]
  norm_num [brightness]

theorem npMean_replicate (n : ℕ) (a : ℚ) (h : n ≠ 0) : npMean (List.replicate n a) = a := by
  unfold npMean
  rw [List.sum_replicate, List.length_replicate, nsmul_eq_mul, mul_comm, mul_div_assoc,
    div_self (Nat.cast_ne_zero.mpr h), mul_one]

theorem collect_cex : collectStats [some cexImgA, some cexImgB] =
    ([], [medianColor (List.replicate 15 ⟨12, 12, 12⟩), medianColor (List.replicate 101 ⟨90, 90, 90⟩)],
     List.replicate 15 ⟨12, 12, 12⟩ ++ List.replicate 101 ⟨90, 90, 90⟩) := by
  simp [collectStats, darkPixels_cexImgA, darkPixels_cexImgB, tint_cexImgA, tint_cexImgB]

theorem collect_uniform : collectStats [some uniformGray] =
    ([meanColorInt (List.replicate 2500 ⟨128, 128, 128⟩)], [], []) := by
  simp only [collectStats, dark_uniformGray, tint_uniformGray, List.length_replicate,
    List.length_nil]
  norm_num

theorem meanColorInt_uniform :
    meanColorInt (List.replicate 2500 ⟨128, 128, 128⟩) = (128, 128, 128) := by
  unfold meanColorInt
  simp only [List.map_replicate]
  rw [npMean_replicate 2500 _ (by norm_num)]
  decide

theorem collectStats_frames (imgs : List (Option PImage)) :
    (collectStats imgs).2.1 =
      (imgs.filterMap id).foldr
        (fun im acc =>
          let dp := darkPixels im
          if dp.length > 10 then medianColor dp :: acc else acc) [] := by
  induction imgs with
  | nil => rfl
  | cons o rest ih =>
    cases o with
    | none => exact ih
    | some im =>
      have hfm : ((some im :: rest).filterMap id) = im :: rest.filterMap id := rfl
      rw [hfm, List.foldr_cons]
      dsimp only
      rw [← ih]
      rfl

/-- C8: the per-image shape classification decision tree is total and follows
the claimed rule order with first match winning — `classify_shape` agrees
with the spec-worded tree `spec_shape_tree` on every
(aspect_ratio, fill_ratio, circularity) triple and always produces exactly
one of the categories round, aviator, wayfarer, sport, square, cat_eye. -/
theorem shape_tree_total_and_ordered (ar fr c : ℚ) :
    classify_shape ar fr c = spec_shape_tree ar fr c ∧
      classify_shape ar fr c ∈ shape_categories := by
  refine ⟨?_, classify_shape_mem ar fr c⟩
  unfold classify_shape spec_shape_tree
  split_ifs <;> rfl

/-- C10: on every input (any image list, any skipped images, and the
exception handler) `detect_glasses_shape` returns one of the six strings
round, aviator, wayfarer, sport, square, cat_eye — never "classic" — and
consequently every `some` result of `match_by_shape` carries confidence
exactly 0.75 (the 0.5 branch is unreachable). -/
theorem detected_shape_codomain :
    (∀ (raised : Bool) (imgs : List (Option (ℚ × ℚ × ℚ))),
      detect_glasses_shape raised imgs ∈ shape_categories ∧
        detect_glasses_shape raised imgs ≠ "classic") ∧
    (∀ (mR dR : Bool) (imgs : List (Option (ℚ × ℚ × ℚ))) (models : List String)
      (props : ExtractedProperties) (r : MatchResult),
      match_by_shape mR dR imgs models props = some r → r.confidence = some 0.75) := by
  constructor
  · intro raised imgs
    exact ⟨detect_mem raised imgs, shape_categories_ne_classic _ (detect_mem raised imgs)⟩
  · intro mR dR imgs models props r h
    have hnc : detect_glasses_shape dR imgs ≠ "classic" :=
      shape_categories_ne_classic _ (detect_mem dR imgs)
    unfold match_by_shape at h
    dsimp only at h
    split_ifs at h <;> ((rcases h with ⟨⟩) <;> simp_all)

/-- Witness for C10: a concrete run of the shape detector and a concrete
successful fallback match with confidence 0.75. -/
theorem detected_shape_codomain_witness :
    detect_glasses_shape false [] ∈ shape_categories ∧
    ({ best_model := some "round_black.glb", confidence := some 0.75,
       source_image := some "shape_detection", matched := true,
       method := some "shape_match", detected_shape := some "round",
       props := some defaultProperties } : MatchResult).confidence = some 0.75 := by
  constructor
  · exact (detected_shape_codomain.1 false []).1
  · exact detected_shape_codomain.2 false false [] ["round_black.glb"] defaultProperties _ rfl

/-- C9: whenever the shape detector outputs aviator, the fallback matcher on
the catalog [round_black.glb, aviator_gold.glb, wayfarer_blue.glb] selects
aviator_gold.glb (the first matching candidate in catalog enumeration
order) with confidence 0.75 and method shape_match. -/
theorem aviator_fallback_scenario (imgs : List (Option (ℚ × ℚ × ℚ)))
    (props : ExtractedProperties)
    (h : detect_glasses_shape false imgs = "aviator") :
    match_by_shape false false imgs
        ["round_black.glb", "aviator_gold.glb", "wayfarer_blue.glb"] props =
      some { best_model := some "aviator_gold.glb", confidence := some 0.75,
             source_image := some "shape_detection", matched := true,
             method := some "shape_match", detected_shape := some "aviator",
             props := some props } := by
  unfold match_by_shape
  dsimp only
  rw [h]
  rfl

/-- Witness for C9: a single image whose aspect ratio 3 makes the detector
output aviator. -/
theorem aviator_fallback_scenario_witness :
    detect_glasses_shape false [some (3, 0, 0)] = "aviator" ∧
    match_by_shape false false [some (3, 0, 0)]
        ["round_black.glb", "aviator_gold.glb", "wayfarer_blue.glb"] defaultProperties =
      some { best_model := some "aviator_gold.glb", confidence := some 0.75,
             source_image := some "shape_detection", matched := true,
             method := some "shape_match", detected_shape := some "aviator",
             props := some defaultProperties } := by
  have h1 : classify_shape 3 0 0 = "aviator" := by norm_num [classify_shape]
  have h2 : detect_glasses_shape false [some (3, 0, 0)] = "aviator" := by
    have h3 : detect_glasses_shape false [some ((3 : ℚ), (0 : ℚ), (0 : ℚ))] =
        (match most_common [classify_shape 3 0 0] with
         | some s => s
         | none => "round") := rfl
    rw [h3, h1]
    rfl
  exact ⟨h2, aviator_fallback_scenario [some (3, 0, 0)] defaultProperties h2⟩

/-- C7: fail-open — whenever the classifier oracle cannot be loaded, or
inference actually runs (some image loaded) and raises, the validation gate
returns (true, 1.0, none), for every input image list. -/
theorem validation_gate_fail_open (clipLoaded inferRaises : Bool)
    (imgs : List (Option (List ℚ)))
    (h : clipLoaded = false ∨ (imgs.filterMap id ≠ [] ∧ inferRaises = true)) :
    validate_glasses_image clipLoaded inferRaises imgs = (true, 1, none) := by
  rcases h with h | ⟨hne, hr⟩
  · subst h; rfl
  · subst hr
    unfold validate_glasses_image
    dsimp only
    by_cases h1 : clipLoaded = false
    · rw [if_pos h1]
    · rw [if_neg h1, if_neg hne, if_pos rfl]

/-- Witness for C7: the oracle-absent case on an empty list. -/
theorem validation_gate_fail_open_witness :
    validate_glasses_image false false [] = (true, 1, none) :=
  validation_gate_fail_open false false [] (Or.inl rfl)

/-- C6: with the classifier oracle available, no inference exception, and at
least one image loaded, the validation gate accepts exactly when the average
glasses score beats the average non-glasses score and reaches the 0.25
floor; on rejection below the floor it emits the "does not appear to be
eyeglasses" reason variant, and otherwise the "something other than glasses"
variant. -/
theorem validation_gate_decision (imgs : List (Option (List ℚ)))
    (h : imgs.filterMap id ≠ []) :
    ((validate_glasses_image true false imgs).1 = true ↔
      avgGlasses imgs > avgNonGlasses imgs ∧ avgGlasses imgs ≥ 0.25) ∧
    (avgGlasses imgs < 0.25 →
      (validate_glasses_image true false imgs).2.2 =
        some (lowConfidenceReason (avgGlasses imgs))) ∧
    ((validate_glasses_image true false imgs).1 = false → avgGlasses imgs ≥ 0.25 →
      (validate_glasses_image true false imgs).2.2 =
        some (otherCategoryReason (avgGlasses imgs) (avgNonGlasses imgs))) := by
  unfold validate_glasses_image
  dsimp only
  rw [if_neg (by simp : ¬(true = false)), if_neg h, if_neg (by simp : ¬(false = true))]
  split_ifs with hc hlow
  · refine ⟨by simp [hc], fun hlt => absurd hlt (not_lt.mpr hc.2), fun hf => by simp at hf⟩
  · exact ⟨⟨fun hh => by simp at hh, fun hh => absurd hh hc⟩, fun _ => rfl,
      fun _ hge => absurd hlow (not_lt.mpr hge)⟩
  · exact ⟨⟨fun hh => by simp at hh, fun hh => absurd hh hc⟩, fun hlt => absurd hlt hlow,
      fun _ _ => rfl⟩

/-- Witness for C6: a single image whose classifier output has glasses mass
0.10, exercising the below-threshold rejection variant. -/
theorem validation_gate_decision_witness :
    (([some probsLow] : List (Option (List ℚ))).filterMap id ≠ []) ∧
    (((validate_glasses_image true false [some probsLow]).1 = true ↔
      avgGlasses [some probsLow] > avgNonGlasses [some probsLow] ∧
        avgGlasses [some probsLow] ≥ 0.25) ∧
    (avgGlasses [some probsLow] < 0.25 →
      (validate_glasses_image true false [some probsLow]).2.2 =
        some (lowConfidenceReason (avgGlasses [some probsLow]))) ∧
    ((validate_glasses_image true false [some probsLow]).1 = false →
      avgGlasses [some probsLow] ≥ 0.25 →
      (validate_glasses_image true false [some probsLow]).2.2 =
        some (otherCategoryReason (avgGlasses [some probsLow])
          (avgNonGlasses [some probsLow])))) :=
  ⟨by simp, validation_gate_decision [some probsLow] (by simp)⟩

theorem npMedian_12_90 :
    npMedian (List.replicate 15 (12 : ℚ) ++ List.replicate 101 (90 : ℚ)) = 90 := by
  have hs : sortLe (List.replicate 15 (12 : ℚ) ++ List.replicate 101 (90 : ℚ)) =
      List.replicate 15 (12 : ℚ) ++ List.replicate 101 (90 : ℚ) := by decide
  have h57 : (List.replicate 15 (12 : ℚ) ++ List.replicate 101 (90 : ℚ)).getD 57 0 = 90 := by
    decide
  have h58 : (List.replicate 15 (12 : ℚ) ++ List.replicate 101 (90 : ℚ)).getD 58 0 = 90 := by
    decide
  have hlen : (List.replicate 15 (12 : ℚ) ++ List.replicate 101 (90 : ℚ)).length = 116 := by
    decide
  unfold npMedian
  rw [hs]
  dsimp only
  rw [hlen]
  rw [if_neg (by norm_num), if_neg (by norm_num)]
  rw [show (116 : ℕ) / 2 - 1 = 57 from by norm_num, show (116 : ℕ) / 2 = 58 from by norm_num]
  rw [h57, h58]
  norm_num

theorem medianColor_pop :
    medianColor (List.replicate 15 (⟨12, 12, 12⟩ : RGB) ++ List.replicate 101 ⟨90, 90, 90⟩) =
      (90, 90, 90) := by
  have hr : (List.replicate 15 (⟨12, 12, 12⟩ : RGB) ++
      List.replicate 101 (⟨90, 90, 90⟩ : RGB)).map (fun p : RGB => (p.r : ℚ)) =
      List.replicate 15 (12 : ℚ) ++ List.replicate 101 (90 : ℚ) := by decide
  have hg : (List.replicate 15 (⟨12, 12, 12⟩ : RGB) ++
      List.replicate 101 (⟨90, 90, 90⟩ : RGB)).map (fun p : RGB => (p.g : ℚ)) =
      List.replicate 15 (12 : ℚ) ++ List.replicate 101 (90 : ℚ) := by decide
  have hb : (List.replicate 15 (⟨12, 12, 12⟩ : RGB) ++
      List.replicate 101 (⟨90, 90, 90⟩ : RGB)).map (fun p : RGB => (p.b : ℚ)) =
      List.replicate 15 (12 : ℚ) ++ List.replicate 101 (90 : ℚ) := by decide
  unfold medianColor
  rw [hr, hg, hb, npMedian_12_90]
  decide

theorem meanIntTriple_cex :
    meanIntTriple [((12 : ℤ), (12 : ℤ), (12 : ℤ)), ((90 : ℤ), (90 : ℤ), (90 : ℤ))] =
      (51, 51, 51) := by
  unfold meanIntTriple npMean
  norm_num [npInt]

/-- C2 counterexample: two decodable images whose frame-pixel populations are
15 pixels of RGB 12 and 101 pixels of RGB 90 (116 samples in total).  The
code reports the mean of the two per-image medians, `#333333`, while the
claimed rule — per-channel median of the aggregated population, with the
fallback only below 10 total samples — gives `#5a5a5a`. -/
theorem frame_color_not_population_median :
    (extract_glasses_properties (fun q => q) [some cexImgA, some cexImgB]).frameColor =
      "#333333" ∧
    spec_frame_color [some cexImgA, some cexImgB] = "#5a5a5a" ∧
    (extract_glasses_properties (fun q => q) [some cexImgA, some cexImgB]).frameColor ≠
      spec_frame_color [some cexImgA, some cexImgB] := by
  have hmedA : medianColor (List.replicate 15 (⟨12, 12, 12⟩ : RGB)) = (12, 12, 12) := by decide
  have hmedB : medianColor (List.replicate 101 (⟨90, 90, 90⟩ : RGB)) = (90, 90, 90) := by decide
  have h1 : (extract_glasses_properties (fun q => q) [some cexImgA, some cexImgB]).frameColor =
      "#333333" := by
    unfold extract_glasses_properties
    rw [collect_cex]
    dsimp only
    rw [hmedA, hmedB, if_pos (by simp), meanIntTriple_cex]
    decide
  have h2 : spec_frame_color [some cexImgA, some cexImgB] = "#5a5a5a" := by
    unfold spec_frame_color
    dsimp only
    rw [show (List.filterMap id [some cexImgA, some cexImgB]).foldr
        (fun im acc => darkPixels im ++ acc) [] =
        darkPixels cexImgA ++ (darkPixels cexImgB ++ []) from rfl]
    rw [darkPixels_cexImgA, darkPixels_cexImgB, List.append_nil]
    rw [if_neg (by norm_num), medianColor_pop]
    decide
  exact ⟨h1, h2, by rw [h1, h2]; decide⟩

/-- C2 amended: the reported frame color is the per-channel mean (truncated)
of per-image frame-pixel medians over the images that individually yield
more than 10 frame-pixel samples, with the `#1a1a1a` fallback exactly when no
image yields more than 10 samples. -/
theorem frame_color_mean_of_medians (sqrtq : ℚ → ℚ) (imgs : List (Option PImage))
    (h : imgs.filterMap id ≠ []) :
    (extract_glasses_properties sqrtq imgs).frameColor = amended_frame_color imgs := by
  unfold extract_glasses_properties amended_frame_color
  rw [← collectStats_frames]
  dsimp only
  by_cases hc : (collectStats imgs).2.1 = []
  · rw [if_neg (not_not_intro hc), if_pos hc]
  · rw [if_pos hc, if_neg hc]

/-- Witness for C2's amended theorem at a concrete two-image request. -/
theorem frame_color_mean_of_medians_witness :
    (([some cexImgA, some cexImgB] : List (Option PImage)).filterMap id ≠ []) ∧
    (extract_glasses_properties (fun q => q) [some cexImgA, some cexImgB]).frameColor =
      amended_frame_color [some cexImgA, some cexImgB] :=
  ⟨by simp, frame_color_mean_of_medians (fun q => q) [some cexImgA, some cexImgB] (by simp)⟩

theorem meanIntTriple_uniform :
    meanIntTriple [((128 : ℤ), (128 : ℤ), (128 : ℤ))] = (128, 128, 128) := by
  unfold meanIntTriple npMean
  norm_num [npInt]

theorem extract_uniform_eq (sqrtq : ℚ → ℚ) :
    extract_glasses_properties sqrtq [some uniformGray] =
      { lensColor := "#808080", frameColor := "#1a1a1a", tintOpacity := 0.3,
        frameScale := 1, frameMaterial := "plastic", frameMetalness := 0.1 } := by
  unfold extract_glasses_properties
  rw [collect_uniform, meanColorInt_uniform]
  dsimp only
  norm_num [ExtractedProperties.mk.injEq, meanIntTriple_uniform, hsvS, pyRound, roundHalfEven,
    show hexColorI 128 128 128 = "#808080" from by decide]

/-- C4 counterexample: a single uploaded image all of whose pixels are the
uniform mid-gray RGB 128.  Mid-gray lies inside the tint band (30, 200), so
the Property Extractor does not return the hard-coded default lens values:
lensColor is #808080 (not #3b82f6) and tintOpacity 0.3 (not 0.5). -/
theorem uniform_midgray_not_all_defaults :
    (extract_glasses_properties (fun q => q) [some uniformGray]).lensColor = "#808080" ∧
    (extract_glasses_properties (fun q => q) [some uniformGray]).lensColor ≠
      defaultProperties.lensColor ∧
    (extract_glasses_properties (fun q => q) [some uniformGray]).tintOpacity = 0.3 ∧
    (extract_glasses_properties (fun q => q) [some uniformGray]).tintOpacity ≠
      defaultProperties.tintOpacity := by
  rw [extract_uniform_eq]
  exact ⟨rfl, by decide, rfl, by norm_num [defaultProperties]⟩

/-- C4 amended: the uniform mid-gray (RGB 128) upload yields the default
frame-side properties (frameColor #1a1a1a, frameMaterial plastic,
frameMetalness 0.1) together with frameScale 1, but the mid-gray pixels fall
inside the tint band, so the lens side is lensColor #808080 with
tintOpacity 0.3 rather than the hard-coded lens defaults; the full default
set would require the uniform value to escape the tint band as well. -/
theorem uniform_midgray_properties (sqrtq : ℚ → ℚ) :
    extract_glasses_properties sqrtq [some uniformGray] =
      { lensColor := "#808080", frameColor := "#1a1a1a", tintOpacity := 0.3,
        frameScale := 1, frameMaterial := "plastic", frameMetalness := 0.1 } :=
  extract_uniform_eq sqrtq

/-- Helper facts: the all-mass-on-glasses classifier output passes the gate. -/
theorem validate_probsGood :
    validate_glasses_image true false [some probsGood] = (true, 1, none) := by
  have hg : glassesScore probsGood = 1 := by
    norm_num [glassesScore, probsGood, glasses_prompts]
  have hn : nonGlassesScore probsGood = 0 := by
    norm_num [nonGlassesScore, probsGood, glasses_prompts, non_glasses_prompts, all_prompts]
  have hfm : List.filterMap id [some probsGood] = [probsGood] := by simp
  norm_num [validate_glasses_image, avgGlasses, avgNonGlasses, npMean, hfm, hg, hn]

/-- C1 counterexample: in `envC1` background suppression changes what the
coarse shape descriptor sees (the suppressed copy reads as rectangular, the
original does not).  The source pipeline (`clip_match`, descriptor on the
suppressed first upload) boosts and selects the rayban reference, while the
claimed dataflow (`clip_match_specC1`, descriptor on the original first
upload) selects the plain reference — so the descriptor demonstrably does
not operate on the original uploaded image. -/
theorem shape_descriptor_sees_suppressed_image :
    (clip_match envC1 false false false false [imgVal]).best_model = some "rayban.glb" ∧
    (clip_match_specC1 envC1 false false false false [imgVal]).best_model = some "plain.glb" ∧
    clip_match envC1 false false false false [imgVal] ≠
      clip_match_specC1 envC1 false false false false [imgVal] := by
  have ha1 : rectangular_keywords.any (fun kw => substrIn kw (pyLower "plain.png")) = false := by
    decide
  have ha2 : round_keywords.any (fun kw => substrIn kw (pyLower "plain.png")) = false := by
    decide
  have ha3 : rectangular_keywords.any (fun kw => substrIn kw (pyLower "rayban.png")) = true := by
    decide
  have ha4 : round_keywords.any (fun kw => substrIn kw (pyLower "rayban.png")) = false := by
    decide
  have h1 : (clip_match envC1 false false false false [imgVal]).best_model =
      some "rayban.glb" := by
    norm_num [clip_match, envC1, imgVal, validate_probsGood, boost_scores, boost_one,
      argmaxIdx, ha1, ha2, ha3, ha4,
      show splitextRoot "rayban.png" = "rayban" from by decide,
      show ("rayban" ++ ".glb" : String) = "rayban.glb" from rfl]
  have h2 : (clip_match_specC1 envC1 false false false false [imgVal]).best_model =
      some "plain.glb" := by
    norm_num [clip_match_specC1, envC1, imgVal, validate_probsGood, boost_scores, boost_one,
      argmaxIdx, ha1, ha2, ha3, ha4,
      show splitextRoot "plain.png" = "plain" from by decide,
      show ("plain" ++ ".glb" : String) = "plain.glb" from rfl]
  refine ⟨h1, h2, fun hEq => ?_⟩
  rw [hEq, h2] at h1
  exact absurd h1 (by decide)

/-- C1 amended: for every environment and request, the pipeline behaves as
the amended dataflow says — the Property Extractor consumes the original
uploads while the embedding step and the coarse shape descriptor both
consume the background-suppressed copies, the descriptor specifically the
suppressed first upload (`clip_match` coincides with the amended-spec
model `clip_match_amendedC1` everywhere). -/
theorem clip_match_dataflow_amended (env : Env) (iR eR mR dR : Bool) (imgs : List Img) :
    clip_match env iR eR mR dR imgs = clip_match_amendedC1 env iR eR mR dR imgs := by
  unfold clip_match clip_match_amendedC1
  cases imgs <;> rfl

/-- C5: on the cached-embedding success path the winning catalog entry is
the one whose boosted similarity is maximal (first maximal index), while
the reported confidence is computed from that same entry's original,
unboosted cosine similarity mapped via (score+1)/2 — the ±0.15/−0.10 shape
boosts enter the ranking only, never the confidence formula. -/
theorem boost_affects_ranking_not_confidence (env : Env) (i0 : Img) (irest : List Img)
    (names : List String) (sims boosted : List ℚ) (k : ℕ)
    (hclip : env.clipLoaded = true)
    (hnames : env.refNames = some names)
    (hval : (validate_glasses_image env.clipLoaded false
      ((i0 :: irest).map (fun i => i.clipProbs))).1 = true)
    (hsims : sims = env.simOf ((i0 :: irest).map env.removeBg))
    (hboost : boosted = boost_scores (env.analyzeShape (env.removeBg i0)) names sims)
    (hk : k = argmaxIdx boosted) :
    (clip_match env false false false false (i0 :: irest)).best_model =
      some (splitextRoot (names.getD k "") ++ ".glb") ∧
    (clip_match env false false false false (i0 :: irest)).confidence =
      some (pyRound 3 ((sims.getD k 0 + 1) / 2)) ∧
    (clip_match env false false false false (i0 :: irest)).method = some "clip_cached" ∧
    (∀ j, j < boosted.length → boosted.getD j 0 ≤ boosted.getD k 0) := by
  subst hsims
  subst hboost
  subst hk
  have hstep : clip_match env false false false false (i0 :: irest) =
      { best_model := some (splitextRoot ((names.getD (argmaxIdx (boost_scores
          (env.analyzeShape (env.removeBg i0)) names
          (env.simOf ((i0 :: irest).map env.removeBg)))) "")) ++ ".glb"),
        confidence := some (pyRound 3 (((env.simOf ((i0 :: irest).map env.removeBg)).getD
          (argmaxIdx (boost_scores (env.analyzeShape (env.removeBg i0)) names
          (env.simOf ((i0 :: irest).map env.removeBg)))) 0 + 1) / 2)),
        source_image := some (names.getD (argmaxIdx (boost_scores
          (env.analyzeShape (env.removeBg i0)) names
          (env.simOf ((i0 :: irest).map env.removeBg)))) ""),
        matched := true, method := some "clip_cached",
        props := some (extract_glasses_properties env.sqrtq
          ((i0 :: irest).map (fun i => i.pim))) } := by
    unfold clip_match
    rw [if_neg (by simp only [List.map_cons] at hval; simp [hval]),
      if_neg (by simp [hclip]), hnames]
    rfl
  rw [hstep]
  exact ⟨rfl, rfl, rfl, fun j hj => argmaxIdx_le _ j hj⟩

/-- Witness for C5 in a concrete two-reference environment. -/
theorem boost_affects_ranking_not_confidence_witness :
    envC5.clipLoaded = true ∧
    ((clip_match envC5 false false false false [imgVal]).best_model =
      some (splitextRoot ((["alpha.png", "beta.png"] : List String).getD 0 "") ++ ".glb") ∧
     (clip_match envC5 false false false false [imgVal]).confidence =
      some (pyRound 3 ((([0.5, 0.25] : List ℚ).getD 0 0 + 1) / 2)) ∧
     (clip_match envC5 false false false false [imgVal]).method = some "clip_cached" ∧
     (∀ j, j < ([0.5, 0.25] : List ℚ).length →
       ([0.5, 0.25] : List ℚ).getD j 0 ≤ ([0.5, 0.25] : List ℚ).getD 0 0)) := by
  refine ⟨rfl, boost_affects_ranking_not_confidence envC5 imgVal [] ["alpha.png", "beta.png"]
    [0.5, 0.25] [0.5, 0.25] 0 rfl rfl ?_ ?_ ?_ ?_⟩
  · simp [envC5, imgVal, validate_probsGood]
  · rfl
  · rfl
  · norm_num [argmaxIdx]

/-- C3 counterexample: a reachable validation-rejected run emits a record
with matched:false that omits best_model, confidence and source_image, so
the "every code path produces one complete MatchResult" contract fails as
stated. -/
theorem validation_rejected_record_partial :
    (clip_match envPlainClip false false false false [imgReject]).matched = false ∧
    (clip_match envPlainClip false false false false [imgReject]).method =
      some "validation_rejected" ∧
    (clip_match envPlainClip false false false false [imgReject]).best_model = none ∧
    (clip_match envPlainClip false false false false [imgReject]).confidence = none ∧
    (clip_match envPlainClip false false false false [imgReject]).source_image = none := by
  have hg : glassesScore probsLow = 0.1 := by
    norm_num [glassesScore, probsLow, glasses_prompts]
  have hn : nonGlassesScore probsLow = 0.9 := by
    norm_num [nonGlassesScore, probsLow, glasses_prompts, non_glasses_prompts, all_prompts]
  have hfm : List.filterMap id [some probsLow] = [probsLow] := by simp
  have hv : (validate_glasses_image true false [some probsLow]).1 = false := by
    norm_num [validate_glasses_image, avgGlasses, avgNonGlasses, npMean, hfm, hg, hn]
  refine ⟨?_, ?_, ?_, ?_, ?_⟩ <;> simp [clip_match, envPlainClip, imgReject, hv]

/-- C3 amended: every path of the matcher emits a MatchResult with `matched`
set; every successful (matched:true) record carries best_model, confidence,
source_image, method and the extracted properties, while the rejection and
error paths carry matched:false plus an explicit error field and omit the
success-only fields; the outermost boundary converts any escaped exception
into {error, matched:false, method:"crash_handler"} and never lets it
escape. -/
theorem match_result_field_contract (env : Env) (iR eR mR dR : Bool) (imgs : List Img) :
    ((run_main env iR eR mR dR imgs).matched = true →
      (run_main env iR eR mR dR imgs).best_model.isSome ∧
      (run_main env iR eR mR dR imgs).confidence.isSome ∧
      (run_main env iR eR mR dR imgs).source_image.isSome ∧
      (run_main env iR eR mR dR imgs).method.isSome ∧
      (run_main env iR eR mR dR imgs).props.isSome) ∧
    ((run_main env iR eR mR dR imgs).matched = false →
      (run_main env iR eR mR dR imgs).error.isSome) ∧
    (∀ e : String, main_boundary (Except.error e) =
      { error := some e, matched := false, method := some "crash_handler" }) := by
  have hb : ∀ e : String, main_boundary (Except.error e) =
      { error := some e, matched := false, method := some "crash_handler" } := fun e => rfl
  unfold run_main
  by_cases hi : imgs = []
  · rw [if_pos hi]
    exact ⟨fun hm => by simp at hm, fun _ => by simp, hb⟩
  · rw [if_neg hi]
    obtain ⟨h1, h2⟩ := clip_match_fields env iR eR mR dR imgs
    exact ⟨h1, h2, hb⟩

/-- Witness for C3: a successful fallback run with all fields present, the
no-images error path, and the crash-handler conversion. -/
theorem match_result_field_contract_witness :
    (run_main envFallback false false false false [imgBare]).best_model.isSome ∧
    (run_main envFallback false false false false []).error.isSome ∧
    main_boundary (Except.error "boom") =
      { error := some "boom", matched := false, method := some "crash_handler" } := by
  refine ⟨((match_result_field_contract envFallback false false false false [imgBare]).1 ?_).1,
    (match_result_field_contract envFallback false false false false []).2.1 ?_,
    (match_result_field_contract envFallback false false false false []).2.2 "boom"⟩
  · rfl
  · rfl
